import Mathlib

/-!
Shallow embedding of the llamaindex RAG application (`config.py`,
`document_processor.py`, `query_engine.py`, `image_generator.py`).

External effects — directory listings, the document reader, the vector
search, the language model, the image API, HTTP download and image
decoding — are modelled as oracle functions carried in environment
records, at exactly the interface the repository's code uses.  A Python
exception raised by an external call is an `Except.error` result.
Similarity scores are modelled as rationals; an index handle is a `Nat`.
-/

namespace RagApp

/-- A filesystem restricted to what the code observes: each directory path
maps to its list of entry names, `none` when the directory does not
exist. -/
abbrev FS := String → Option (List String)

/-- Model of `os.makedirs(dir, exist_ok=True)`: creates an empty listing
when the directory is absent, leaves an existing directory unchanged. -/
def makedirs (fs : FS) (dir : String) : FS :=
  fun d => if d = dir then some ((fs dir).getD []) else fs d

/-- One piece of a Python format string: literal text or a named
placeholder (written with braces in the source). -/
inductive TemplatePart where
  | lit (s : String)
  | var (v : String)
deriving Repr, DecidableEq

/-- Model of a llama_index `PromptTemplate`: the template string split at
its placeholders. -/
abbrev PromptTemplate := List TemplatePart

/-- Model of the `str.format`-style substitution llama_index applies to a
`PromptTemplate`: bound placeholders are replaced by their values, unbound
placeholders are kept as literal text. -/
def formatTemplate (t : PromptTemplate) (binds : List (String × String)) : String :=
  t.foldr (fun p acc =>
    (match p with
     | TemplatePart.lit s => s
     | TemplatePart.var v =>
       match List.lookup v binds with
       | some s => s
       | none => "\x7b" ++ v ++ "\x7d") ++ acc) ""

/-- `DEFAULT_QUERY_TEMPLATE` from `query_engine.py`: the triple-quoted
template string, split at its three placeholders. -/
def DEFAULT_QUERY_TEMPLATE : PromptTemplate :=
  [TemplatePart.lit "\n    ",
   TemplatePart.var "system_prompt",
   TemplatePart.lit "\n    \n    上下文信息:\n    ",
   TemplatePart.var "context_str",
   TemplatePart.lit "\n    \n    用户问题: ",
   TemplatePart.var "query_str",
   TemplatePart.lit "\n    \n    请基于上下文信息回答用户问题。如果上下文中没有足够的信息，请说明你无法回答此问题。\n    回答:\n    "]

/-- `config.MODEL_NAME` default (the `os.getenv` defaults of `config.py`
stand in for the environment lookups). -/
def MODEL_NAME : String := "gpt-3.5-turbo"

/-- `config.VECTOR_STORE_DIR` default. -/
def VECTOR_STORE_DIR : String := "vector_store"

/-- `config.DOCUMENTS_DIR` default. -/
def DOCUMENTS_DIR : String := "documents"

/-- `config.TOP_K` default. -/
def TOP_K : Nat := 3

/-- `config.SIMILARITY_THRESHOLD` default (the float `0.7` as a
rational). -/
def SIMILARITY_THRESHOLD : ℚ := mkRat 7 10

/-- `config.SYSTEM_PROMPT` default. -/
def SYSTEM_PROMPT : String :=
  "你是一个有用的AI助手。\n使用以下信息回答用户的问题。\n如果你不知道答案，就说你不知道，不要编造信息。\n基于提供的上下文给出详细的答案。\n"

/-- A loaded document: raw text plus its source path (`llama_index`
`Document`). -/
structure Document where
  text : String
  file_path : String
deriving Repr, DecidableEq

/-- A retrieved chunk with its similarity score (`llama_index`
`NodeWithScore`). -/
structure ScoredNode where
  text : String
  score : ℚ
deriving Repr, DecidableEq

/-- Oracles for the external services the document/query pipeline calls:
`readDocs` is `SimpleDirectoryReader(dir).load_data()`, `buildIndex` is
`VectorStoreIndex.from_documents`, `loadIndex` is the
`FaissVectorStore.from_persist_dir` + `from_vector_store` load,
`indexFiles` the files `storage_context.persist()` writes, `vectorSearch`
the ranked (descending-score) result list of the vector store for a query,
and `llm` the language-model completion for a prompt payload. -/
structure Env where
  readDocs : String → List Document
  buildIndex : List Document → Nat
  loadIndex : String → Nat
  indexFiles : Nat → List String
  vectorSearch : Nat → String → List ScoredNode
  llm : String → String

/-- `DocumentProcessor`: the two configured directory paths. -/
structure DocumentProcessor where
  documents_dir : String
  vector_store_dir : String
deriving Repr, DecidableEq

/-- `DocumentProcessor.__init__`: stores the two directories and runs
`os.makedirs(..., exist_ok=True)` on both (the `Settings.llm` assignment
only configures the external library and carries no state here). -/
def DocumentProcessor.init (documents_dir : String) (vector_store_dir : String)
    (fs : FS) : DocumentProcessor × FS :=
  (⟨documents_dir, vector_store_dir⟩, makedirs (makedirs fs documents_dir) vector_store_dir)

/-- `DocumentProcessor.load_documents`: the directory defaults to
`self.documents_dir`; returns `[]` when `os.path.exists` fails or
`os.listdir` is empty; otherwise returns
`SimpleDirectoryReader(directory).load_data()`. -/
def DocumentProcessor.load_documents (env : Env) (dp : DocumentProcessor) (fs : FS)
    (directory : Option String) : List Document :=
  let dir := directory.getD dp.documents_dir
  match fs dir with
  | none => []
  | some entries => if entries.isEmpty then [] else env.readDocs dir

/-- Model of `index.storage_context.persist()` for an index whose FAISS
store was opened at `dir`: the directory now lists the persisted index
files. -/
def persistIndex (env : Env) (fs : FS) (dir : String) (ix : Nat) : FS :=
  fun d => if d = dir then some (env.indexFiles ix) else fs d

/-- `DocumentProcessor.process_documents`: loads from the default
directory when no documents are given; returns `None` when the collection
is empty; otherwise builds a vector index over a FAISS store at
`self.vector_store_dir`, persists it there, and returns it. -/
def DocumentProcessor.process_documents (env : Env) (dp : DocumentProcessor) (fs : FS)
    (documents : Option (List Document)) : Option Nat × FS :=
  let documents := match documents with
    | none => dp.load_documents env fs none
    | some ds => ds
  if documents.isEmpty then (none, fs)
  else
    let index := env.buildIndex documents
    (some index, persistIndex env fs dp.vector_store_dir index)

/-- `DocumentProcessor.load_index`: returns `None` when the vector-store
directory does not exist or lists no entries; otherwise loads the
persisted index. -/
def DocumentProcessor.load_index (env : Env) (dp : DocumentProcessor) (fs : FS) :
    Option Nat :=
  match fs dp.vector_store_dir with
  | none => none
  | some entries =>
    if entries.isEmpty then none else some (env.loadIndex dp.vector_store_dir)

/-- The pipeline `_create_query_engine` assembles: a
`VectorIndexRetriever` over the index with `similarity_top_k`, and a
compact response synthesizer carrying `text_qa_template`
(`RetrieverQueryEngine`). -/
structure QueryPipeline where
  retriever_index : Nat
  similarity_top_k : Nat
  text_qa_template : PromptTemplate
deriving Repr, DecidableEq

/-- A llama_index query response: the synthesized text (`str(response)`)
and the retrieved source nodes. -/
structure Response where
  text : String
  source_nodes : List ScoredNode
deriving Repr, DecidableEq

/-- Model of the external `RetrieverQueryEngine.query` call at the
interface `QueryEngine.query` uses: the retriever takes the top
`similarity_top_k` entries of the ranked vector search, the
`similarity_cutoff` keyword filters them by score, and when nodes survive
the compact synthesizer joins their texts into `context_str`, formats
`text_qa_template` with `context_str` and `query_str`, and issues exactly
one language-model call on the formatted payload; with no surviving nodes
it returns an empty response without calling the model.  The second
component is the list of language-model requests issued. -/
def QueryPipeline.run (env : Env) (p : QueryPipeline) (query_text : String)
    (similarity_cutoff : ℚ) : Response × List String :=
  let retrieved := (env.vectorSearch p.retriever_index query_text).take p.similarity_top_k
  let nodes := retrieved.filter (fun n => decide (similarity_cutoff ≤ n.score))
  if nodes.isEmpty then (⟨"Empty Response", nodes⟩, [])
  else
    let context_str := String.intercalate "\n\n" (nodes.map ScoredNode.text)
    let payload := formatTemplate p.text_qa_template
      [("context_str", context_str), ("query_str", query_text)]
    (⟨env.llm payload, nodes⟩, [payload])

/-- `QueryEngine`: its document processor, the two prompt fields, the
optional index and the optional pipeline. -/
structure QueryEngine where
  document_processor : DocumentProcessor
  system_prompt : String
  query_template : PromptTemplate
  index : Option Nat
  query_engine : Option QueryPipeline
deriving Repr, DecidableEq

/-- `QueryEngine._create_query_engine`: returns unchanged when no index is
present (only a warning is logged); otherwise installs a fresh pipeline
over the index with `similarity_top_k = config.TOP_K` and the active
`query_template`. -/
def QueryEngine.create_query_engine (s : QueryEngine) : QueryEngine :=
  match s.index with
  | none => s
  | some ix => { s with query_engine := some ⟨ix, TOP_K, s.query_template⟩ }

/-- `QueryEngine._load_or_create_index`: tries `load_index`, falls back to
`process_documents()`, and creates the pipeline exactly when an index was
obtained. -/
def QueryEngine.load_or_create_index (env : Env) (s : QueryEngine) (fs : FS) :
    QueryEngine × FS :=
  let loaded := s.document_processor.load_index env fs
  let ixfs := match loaded with
    | none => s.document_processor.process_documents env fs none
    | some i => (some i, fs)
  let s' := { s with index := ixfs.1 }
  (if ixfs.1.isSome then s'.create_query_engine else s', ixfs.2)

/-- `QueryEngine.__init__`: defaults the document processor (constructing
one, with its directory side effects) and the template, stores the system
prompt, starts with no index and no pipeline, then runs
`_load_or_create_index`. -/
def QueryEngine.init (env : Env) (document_processor : Option DocumentProcessor)
    (system_prompt : String) (query_template : Option PromptTemplate) (fs : FS) :
    QueryEngine × FS :=
  let dpfs := match document_processor with
    | some dp => (dp, fs)
    | none => DocumentProcessor.init DOCUMENTS_DIR VECTOR_STORE_DIR fs
  QueryEngine.load_or_create_index env
    ⟨dpfs.1, system_prompt, query_template.getD DEFAULT_QUERY_TEMPLATE, none, none⟩ dpfs.2

/-- `QueryEngine.update_prompt`: overwrites whichever of the two prompt
fields is supplied, then recreates the pipeline. -/
def QueryEngine.update_prompt (s : QueryEngine) (system_prompt : Option String)
    (query_template : Option PromptTemplate) : QueryEngine :=
  let s₁ := match system_prompt with
    | some sp => { s with system_prompt := sp }
    | none => s
  let s₂ := match query_template with
    | some t => { s₁ with query_template := t }
    | none => s₁
  s₂.create_query_engine

/-- The fixed unavailability message `QueryEngine.query` returns when no
pipeline exists. -/
def NO_ENGINE_MESSAGE : String := "系统错误：查询引擎不可用。请确保已正确加载或创建索引。"

/-- The fixed no-relevant-information message `QueryEngine.query` returns
when the response carries no source nodes. -/
def NO_RESULTS_MESSAGE : String := "抱歉，我在知识库中没有找到与您问题相关的信息。"

/-- `QueryEngine.query`: the fixed unavailability string when
`self.query_engine is None`; otherwise runs the pipeline with
`similarity_cutoff = config.SIMILARITY_THRESHOLD`, returns the fixed
no-results string when `response.source_nodes` is empty, and
`str(response)` otherwise. -/
def QueryEngine.query (env : Env) (s : QueryEngine) (query_text : String) : String :=
  match s.query_engine with
  | none => NO_ENGINE_MESSAGE
  | some p =>
    let response := (QueryPipeline.run env p query_text SIMILARITY_THRESHOLD).1
    if response.source_nodes.isEmpty then NO_RESULTS_MESSAGE
    else response.text

/-- The language-model requests one `QueryEngine.query` call issues: none
when no pipeline exists, otherwise the requests of the pipeline run. -/
def QueryEngine.queryLMRequests (env : Env) (s : QueryEngine) (query_text : String) :
    List String :=
  match s.query_engine with
  | none => []
  | some p => (QueryPipeline.run env p query_text SIMILARITY_THRESHOLD).2

/-- One element of `response.data` from the image API: its image URL. -/
structure ImageData where
  url : String
deriving Repr, DecidableEq

/-- One result record of `generate_image`. -/
structure ImageRecord where
  url : String
  local_path : String
  prompt : String
deriving Repr, DecidableEq

/-- One external OpenAI API call made by `ImageGenerator` (traced to state
which endpoints a method hits). -/
inductive APICall where
  | chatCompletion (model : String) (messages : List (String × String))
  | imagesGeneration (model : String) (prompt : String) (size : String)
      (quality : String) (style : String) (n : Nat)
deriving Repr, DecidableEq

/-- Does this API call hit the image-generation endpoint? -/
def APICall.isImagesCall : APICall → Bool
  | APICall.imagesGeneration _ _ _ _ _ _ => true
  | APICall.chatCompletion _ _ => false

/-- Oracles for the external effects of `ImageGenerator`, `Except`-valued
where the Python call can raise: `imagesGenerate` is
`client.images.generate`, `httpGet` is `requests.get(url).content`,
`imageDecode` is `Image.open(BytesIO(...))`, `imageSave` is
`image.save(path)`, `chatCompletions` is
`client.chat.completions.create(...).choices[0].message.content`, and
`timestamp` is `datetime.now().strftime("%Y%m%d_%H%M%S")`. -/
structure ImgEnv where
  imagesGenerate : String → String → String → String → String → Nat →
    Except String (List ImageData)
  httpGet : String → Except String String
  imageDecode : String → Except String String
  imageSave : String → String → Except String Unit
  chatCompletions : String → List (String × String) → Except String String
  timestamp : String

/-- `ImageGenerator`: its output directory and chat model name (the API
key only selects the client and carries no state here). -/
structure ImageGenerator where
  output_dir : String
  model : String
deriving Repr, DecidableEq

/-- The `for i, image_data in enumerate(response.data)` loop of
`generate_image`: download the bytes, decode them, save under
`image_<timestamp>_<i>.png` in the output directory, and append the
`url`/`local_path`/`prompt` record; the first failing step aborts the
whole loop (its exception reaches the enclosing `except`). -/
def saveImages (env : ImgEnv) (output_dir : String) (prompt : String) :
    Nat → List ImageData → Except String (List ImageRecord)
  | _, [] => Except.ok []
  | i, d :: rest =>
    match env.httpGet d.url with
    | Except.error e => Except.error e
    | Except.ok bytes =>
      match env.imageDecode bytes with
      | Except.error e => Except.error e
      | Except.ok image =>
        let save_path := output_dir ++ "/" ++
          ("image_" ++ env.timestamp ++ "_" ++ toString i ++ ".png")
        match env.imageSave save_path image with
        | Except.error e => Except.error e
        | Except.ok _ =>
          match saveImages env output_dir prompt (i + 1) rest with
          | Except.error e => Except.error e
          | Except.ok records =>
            Except.ok ({ url := d.url, local_path := save_path, prompt := prompt } :: records)

/-- `ImageGenerator.generate_image`: one `images.generate` call on model
`"dall-e-3"` requesting `n` images, then the download/decode/save loop
over `response.data`; any exception anywhere in the `try` body is caught
and turned into `[]`.  The second component lists the API calls made. -/
def ImageGenerator.generate_image (env : ImgEnv) (g : ImageGenerator) (prompt : String)
    (size : String) (quality : String) (style : String) (n : Nat) :
    List ImageRecord × List APICall :=
  let calls := [APICall.imagesGeneration "dall-e-3" prompt size quality style n]
  match env.imagesGenerate "dall-e-3" prompt size quality style n with
  | Except.error _ => ([], calls)
  | Except.ok data =>
    match saveImages env g.output_dir prompt 0 data with
    | Except.error _ => ([], calls)
    | Except.ok result => (result, calls)

/-- The fixed system instruction of the analysis chat call in
`generate_image_with_text_analysis`. -/
def ANALYSIS_SYSTEM_MESSAGE : String :=
  "你是一个专业的图像描述专家。你的任务是将用户的文本转换为详细、生动的图像生成提示。描述应该具体、富有想象力，并包含关键视觉细节，如光线、颜色、构图和风格。提示应该是中文的，长度适中（100-150字左右），并且能够捕捉用户意图的精髓。只返回图像描述，不要有其他解释或前缀。"

/-- The messages of the analysis chat call for a given user text. -/
def analysisMessages (text : String) : List (String × String) :=
  [("system", ANALYSIS_SYSTEM_MESSAGE),
   ("user", "请为以下文本创建一个图像生成提示：\n\n" ++ text)]

/-- `ImageGenerator.generate_image_with_text_analysis`: one chat call on
`self.model` with the fixed system instruction and the user text; on
success the stripped reply text is the enhanced prompt passed to
`generate_image` with all of that method's defaults; an exception in the
analysis step is caught and turned into `[]` before any image-API call is
made.  The second component lists the API calls made. -/
def ImageGenerator.generate_image_with_text_analysis (env : ImgEnv) (g : ImageGenerator)
    (text : String) : List ImageRecord × List APICall :=
  match env.chatCompletions g.model (analysisMessages text) with
  | Except.error _ => ([], [APICall.chatCompletion g.model (analysisMessages text)])
  | Except.ok content =>
    let enhanced_prompt := content.trim
    let rc := ImageGenerator.generate_image env g enhanced_prompt "1024x1024" "standard" "vivid" 1
    (rc.1, APICall.chatCompletion g.model (analysisMessages text) :: rc.2)

/-- A concrete oracle environment for concrete evaluations: a single-chunk
knowledge base whose language model echoes its request. -/
def env0 : Env where
  readDocs := fun _ => []
  buildIndex := fun _ => 0
  loadIndex := fun _ => 7
  indexFiles := fun _ => ["default__vector_store.json"]
  vectorSearch := fun _ _ => [⟨"巴黎是法国的首都。", mkRat 9 10⟩]
  llm := fun payload => "回答:" ++ payload

/-- Like `env0` but the directory reader yields one document. -/
def envDocs : Env :=
  { env0 with readDocs := fun _ => [⟨"巴黎是法国的首都。", "documents/hello.txt"⟩] }

/-- A filesystem with no directories at all. -/
def fsEmpty : FS := fun _ => none

/-- A filesystem whose vector-store directory holds a persisted index. -/
def fsReady : FS :=
  fun d => if d = "vector_store" then some ["default__vector_store.json"] else none

/-- A filesystem whose documents directory holds one file. -/
def fsDocs : FS := fun d => if d = "documents" then some ["hello.txt"] else none

/-- A concretely constructed READY engine: built over `fsReady`, whose
persisted index loads successfully. -/
def readyEngine : QueryEngine := (QueryEngine.init env0 none SYSTEM_PROMPT none fsReady).1

/-- A concrete image-generator environment on which every external call
succeeds. -/
def imgEnvOk : ImgEnv where
  imagesGenerate := fun _ _ _ _ _ k => Except.ok (List.replicate k ⟨"https://img.example/u"⟩)
  httpGet := fun _ => Except.ok "pngbytes"
  imageDecode := fun b => Except.ok b
  imageSave := fun _ _ => Except.ok ()
  chatCompletions := fun _ _ => Except.ok "  一只红色圆形的特写  "
  timestamp := "20240101_000000"

/-- Like `imgEnvOk` but the image API call raises. -/
def imgEnvApiFail : ImgEnv :=
  { imgEnvOk with imagesGenerate := fun _ _ _ _ _ _ => Except.error "APIError" }

/-- Like `imgEnvOk` but the analysis chat call raises. -/
def imgEnvChatFail : ImgEnv :=
  { imgEnvOk with chatCompletions := fun _ _ => Except.error "APIConnectionError" }

/-- Like `imgEnvOk` but every image download raises. -/
def imgEnvHttpFail : ImgEnv :=
  { imgEnvOk with httpGet := fun _ => Except.error "ConnectionError" }

/-- A concrete image generator instance. -/
def gen0 : ImageGenerator := ⟨"generated_images", "gpt-4o"⟩

/-- Structural invariant of a `QueryEngine` state: any installed pipeline
was built by `_create_query_engine` from the current state, i.e. it wraps
the current index, the configured top-K, and the active template. -/
def GoodState (s : QueryEngine) : Prop :=
  ∀ p, s.query_engine = some p →
    s.index = some p.retriever_index ∧ p.similarity_top_k = TOP_K ∧
      p.text_qa_template = s.query_template

/-- States a `QueryEngine` can be in after some sequence of the
repository's operations: construction (any arguments, any starting
filesystem), `update_prompt`, and `query` (which does not modify the
state). -/
inductive Reachable (env : Env) : QueryEngine → Prop where
  | construct (dp : Option DocumentProcessor) (sp : String)
      (tpl : Option PromptTemplate) (fs : FS) :
      Reachable env (QueryEngine.init env dp sp tpl fs).1
  | update (s : QueryEngine) (sp : Option String) (tpl : Option PromptTemplate) :
      Reachable env s → Reachable env (s.update_prompt sp tpl)

theorem goodState_of_engine_none (s : QueryEngine) (h : s.query_engine = none) :
    GoodState s := by
  intro p hp
  rw [h] at hp
  exact absurd hp (by simp)

theorem goodState_create_of_some (s : QueryEngine) (ix : Nat) (hix : s.index = some ix) :
    GoodState s.create_query_engine := by
  unfold QueryEngine.create_query_engine
  rw [hix]
  intro p hp
  simp only [Option.some.injEq] at hp
  rw [← hp]
  exact ⟨by simp [hix], rfl, rfl⟩

theorem goodState_create (s : QueryEngine) (hs : GoodState s) :
    GoodState s.create_query_engine := by
  cases hix : s.index with
  | none =>
    have heq : s.create_query_engine = s := by
      unfold QueryEngine.create_query_engine; rw [hix]
    rw [heq]; exact hs
  | some ix => exact goodState_create_of_some s ix hix

theorem engine_none_of_index_none (s : QueryEngine) (hs : GoodState s)
    (hix : s.index = none) : s.query_engine = none := by
  cases hqe : s.query_engine with
  | none => rfl
  | some p =>
    have := (hs p hqe).1
    rw [hix] at this
    exact absurd this (by simp)

theorem goodState_loci (env : Env) (s : QueryEngine) (fs : FS)
    (h : s.query_engine = none) :
    GoodState (QueryEngine.load_or_create_index env s fs).1 := by
  unfold QueryEngine.load_or_create_index
  cases hld : s.document_processor.load_index env fs with
  | some i =>
    simp only [hld, Option.isSome_some, if_true]
    exact goodState_create_of_some _ i rfl
  | none =>
    simp only [hld]
    cases hpd : (s.document_processor.process_documents env fs none).1 with
    | none =>
      simp only [hpd, Option.isSome_none, Bool.false_eq_true, if_false]
      exact goodState_of_engine_none _ h
    | some i =>
      simp only [hpd, Option.isSome_some, if_true]
      exact goodState_create_of_some _ i rfl

theorem goodState_init (env : Env) (dp : Option DocumentProcessor) (sp : String)
    (tpl : Option PromptTemplate) (fs : FS) :
    GoodState (QueryEngine.init env dp sp tpl fs).1 := by
  unfold QueryEngine.init
  exact goodState_loci env _ _ rfl

theorem goodState_update (s : QueryEngine) (sp : Option String)
    (tpl : Option PromptTemplate) (hs : GoodState s) :
    GoodState (s.update_prompt sp tpl) := by
  unfold QueryEngine.update_prompt
  cases hix : s.index with
  | some ix =>
    apply goodState_create_of_some _ ix
    cases sp <;> cases tpl <;> simp [hix]
  | none =>
    apply goodState_create
    apply goodState_of_engine_none
    have hqe := engine_none_of_index_none s hs hix
    cases sp <;> cases tpl <;> simp [hqe]

theorem reachable_goodState (env : Env) (s : QueryEngine) (h : Reachable env s) :
    GoodState s := by
  induction h with
  | construct dp sp tpl fs => exact goodState_init env dp sp tpl fs
  | update s sp tpl _ ih => exact goodState_update s sp tpl ih

/-- C3: a Query Engine in the NO_INDEX state (no index loaded or created
along any operation sequence) returns the fixed unavailability message
verbatim for every input string; the embedding is a total function, which
is how "never raises" is rendered. -/
theorem C3_no_index_query_fixed_message (env : Env) (s : QueryEngine)
    (hr : Reachable env s) (hix : s.index = none) (query_text : String) :
    QueryEngine.query env s query_text = NO_ENGINE_MESSAGE := by
  have hqe := engine_none_of_index_none s (reachable_goodState env s hr) hix
  unfold QueryEngine.query
  rw [hqe]

/-- Witness for C3 at a concretely constructed engine whose load and
creation both found nothing. -/
theorem C3_no_index_query_fixed_message_witness :
    (QueryEngine.init env0 none SYSTEM_PROMPT none fsEmpty).1.index = none ∧
    QueryEngine.query env0 (QueryEngine.init env0 none SYSTEM_PROMPT none fsEmpty).1 "你好"
      = NO_ENGINE_MESSAGE :=
  ⟨rfl, C3_no_index_query_fixed_message env0 _
    (Reachable.construct none SYSTEM_PROMPT none fsEmpty) rfl "你好"⟩

/-- C6: along every sequence of construction, `update_prompt` and `query`
(queries do not modify the state), a pipeline is present only if an index
is present, and with no index every query degrades to the fixed error
response instead of running the pipeline. -/
theorem C6_pipeline_requires_index (env : Env) (s : QueryEngine)
    (hr : Reachable env s) :
    (s.query_engine.isSome → s.index.isSome) ∧
    (s.index = none → ∀ query_text,
      QueryEngine.query env s query_text = NO_ENGINE_MESSAGE) := by
  have hg := reachable_goodState env s hr
  constructor
  · intro hqe
    cases hp : s.query_engine with
    | none => rw [hp] at hqe; exact absurd hqe (by simp)
    | some p => rw [(hg p hp).1]; rfl
  · intro hix query_text
    have hqe := engine_none_of_index_none s hg hix
    unfold QueryEngine.query
    rw [hqe]

/-- Witness for C6 at a concretely constructed engine. -/
theorem C6_pipeline_requires_index_witness :
    ((QueryEngine.init env0 none SYSTEM_PROMPT none fsEmpty).1.query_engine.isSome →
      (QueryEngine.init env0 none SYSTEM_PROMPT none fsEmpty).1.index.isSome) ∧
    ((QueryEngine.init env0 none SYSTEM_PROMPT none fsEmpty).1.index = none →
      ∀ query_text,
        QueryEngine.query env0 (QueryEngine.init env0 none SYSTEM_PROMPT none fsEmpty).1
          query_text = NO_ENGINE_MESSAGE) :=
  C6_pipeline_requires_index env0 _ (Reachable.construct none SYSTEM_PROMPT none fsEmpty)

/-- C7: `load_documents` returns the empty collection when the requested
directory (the configured default when no argument is given) is missing or
empty, and otherwise returns the reader's document sequence for that
directory, in on-disk order; the embedding is total, so no exception is
modelled. -/
theorem C7_load_documents_missing_or_empty (env : Env) (dp : DocumentProcessor)
    (fs : FS) (directory : Option String) :
    (fs (directory.getD dp.documents_dir) = none →
      dp.load_documents env fs directory = []) ∧
    (fs (directory.getD dp.documents_dir) = some [] →
      dp.load_documents env fs directory = []) ∧
    (∀ l, fs (directory.getD dp.documents_dir) = some l → l ≠ [] →
      dp.load_documents env fs directory
        = env.readDocs (directory.getD dp.documents_dir)) := by
  refine ⟨?_, ?_, ?_⟩
  · intro h
    unfold DocumentProcessor.load_documents
    simp [h]
  · intro h
    unfold DocumentProcessor.load_documents
    simp [h]
  · intro l h hne
    cases l with
    | nil => exact absurd rfl hne
    | cons a t =>
      unfold DocumentProcessor.load_documents
      simp [h]

/-- Witness for C7: a missing directory, an empty directory, and a
directory with one file. -/
theorem C7_load_documents_missing_or_empty_witness :
    DocumentProcessor.load_documents envDocs ⟨"documents", "vector_store"⟩ fsEmpty none
      = [] ∧
    DocumentProcessor.load_documents envDocs ⟨"documents", "vector_store"⟩
      (DocumentProcessor.init "documents" "vector_store" fsEmpty).2 none = [] ∧
    DocumentProcessor.load_documents envDocs ⟨"documents", "vector_store"⟩ fsDocs none
      = envDocs.readDocs "documents" :=
  ⟨(C7_load_documents_missing_or_empty envDocs ⟨"documents", "vector_store"⟩ fsEmpty none).1
      rfl,
   (C7_load_documents_missing_or_empty envDocs ⟨"documents", "vector_store"⟩
      (DocumentProcessor.init "documents" "vector_store" fsEmpty).2 none).2.1 rfl,
   (C7_load_documents_missing_or_empty envDocs ⟨"documents", "vector_store"⟩ fsDocs none).2.2
      ["hello.txt"] rfl (by decide)⟩

/-- C8: `load_index` returns the loaded persisted index exactly when the
vector-store directory exists and is non-empty, and `None` when it is
missing or empty; the embedding is total, so no exception is modelled. -/
theorem C8_load_index_iff_nonempty (env : Env) (dp : DocumentProcessor) (fs : FS) :
    (fs dp.vector_store_dir = none → dp.load_index env fs = none) ∧
    (fs dp.vector_store_dir = some [] → dp.load_index env fs = none) ∧
    (∀ l, fs dp.vector_store_dir = some l → l ≠ [] →
      dp.load_index env fs = some (env.loadIndex dp.vector_store_dir)) := by
  refine ⟨?_, ?_, ?_⟩
  · intro h
    unfold DocumentProcessor.load_index
    rw [h]
  · intro h
    unfold DocumentProcessor.load_index
    rw [h]
    rfl
  · intro l h hne
    unfold DocumentProcessor.load_index
    rw [h]
    cases l with
    | nil => exact absurd rfl hne
    | cons a t => rfl

/-- Witness for C8: a missing vector-store directory, an empty one (as
constructed by `DocumentProcessor.__init__`), and one holding a persisted
index. -/
theorem C8_load_index_iff_nonempty_witness :
    DocumentProcessor.load_index env0 ⟨"documents", "vector_store"⟩ fsEmpty = none ∧
    DocumentProcessor.load_index env0 ⟨"documents", "vector_store"⟩
      (DocumentProcessor.init "documents" "vector_store" fsEmpty).2 = none ∧
    DocumentProcessor.load_index env0 ⟨"documents", "vector_store"⟩ fsReady
      = some (env0.loadIndex "vector_store") :=
  ⟨(C8_load_index_iff_nonempty env0 ⟨"documents", "vector_store"⟩ fsEmpty).1 rfl,
   (C8_load_index_iff_nonempty env0 ⟨"documents", "vector_store"⟩
      (DocumentProcessor.init "documents" "vector_store" fsEmpty).2).2.1 rfl,
   (C8_load_index_iff_nonempty env0 ⟨"documents", "vector_store"⟩ fsReady).2.2
      ["default__vector_store.json"] rfl (by decide)⟩

/-- C9: with no documents argument, `process_documents` takes the
collection loaded from the default configured directory; an empty
collection (given or loaded) yields no index and leaves the filesystem
alone; a non-empty collection yields the index built from it, with the
index files persisted at the configured vector-store directory. -/
theorem C9_process_documents_build_persist (env : Env) (dp : DocumentProcessor)
    (fs : FS) :
    (dp.load_documents env fs none = [] →
      dp.process_documents env fs none = (none, fs)) ∧
    (∀ ds, dp.load_documents env fs none = ds → ds ≠ [] →
      dp.process_documents env fs none
        = (some (env.buildIndex ds),
           persistIndex env fs dp.vector_store_dir (env.buildIndex ds))) ∧
    (dp.process_documents env fs (some []) = (none, fs)) ∧
    (∀ ds, ds ≠ [] →
      dp.process_documents env fs (some ds)
        = (some (env.buildIndex ds),
           persistIndex env fs dp.vector_store_dir (env.buildIndex ds))) := by
  refine ⟨?_, ?_, ?_, ?_⟩
  · intro h
    unfold DocumentProcessor.process_documents
    simp [h]
  · intro ds h hne
    cases ds with
    | nil => exact absurd rfl hne
    | cons a t =>
      unfold DocumentProcessor.process_documents
      simp [h]
  · unfold DocumentProcessor.process_documents
    simp
  · intro ds hne
    cases ds with
    | nil => exact absurd rfl hne
    | cons a t =>
      unfold DocumentProcessor.process_documents
      simp

/-- Witness for C9: an empty default directory, a one-file default
directory, an explicit empty collection, and an explicit one-document
collection. -/
theorem C9_process_documents_build_persist_witness :
    DocumentProcessor.process_documents env0 ⟨"documents", "vector_store"⟩ fsEmpty none
      = (none, fsEmpty) ∧
    DocumentProcessor.process_documents envDocs ⟨"documents", "vector_store"⟩ fsDocs none
      = (some (envDocs.buildIndex (envDocs.readDocs "documents")),
         persistIndex envDocs fsDocs "vector_store"
           (envDocs.buildIndex (envDocs.readDocs "documents"))) ∧
    DocumentProcessor.process_documents env0 ⟨"documents", "vector_store"⟩ fsEmpty
      (some []) = (none, fsEmpty) ∧
    DocumentProcessor.process_documents env0 ⟨"documents", "vector_store"⟩ fsEmpty
      (some [⟨"巴黎是法国的首都。", "documents/hello.txt"⟩])
      = (some (env0.buildIndex [⟨"巴黎是法国的首都。", "documents/hello.txt"⟩]),
         persistIndex env0 fsEmpty "vector_store"
           (env0.buildIndex [⟨"巴黎是法国的首都。", "documents/hello.txt"⟩])) :=
  ⟨(C9_process_documents_build_persist env0 ⟨"documents", "vector_store"⟩ fsEmpty).1 rfl,
   (C9_process_documents_build_persist envDocs ⟨"documents", "vector_store"⟩ fsDocs).2.1
      (envDocs.readDocs "documents") rfl (by decide),
   (C9_process_documents_build_persist env0 ⟨"documents", "vector_store"⟩ fsEmpty).2.2.1,
   (C9_process_documents_build_persist env0 ⟨"documents", "vector_store"⟩ fsEmpty).2.2.2
      [⟨"巴黎是法国的首都。", "documents/hello.txt"⟩] (by decide)⟩

theorem makedirs_self (fs : FS) (dir : String) :
    makedirs fs dir dir = some ((fs dir).getD []) := by
  unfold makedirs
  simp

theorem makedirs_other (fs : FS) (dir d : String) (h : ¬d = dir) :
    makedirs fs dir d = fs d := by
  unfold makedirs
  simp [h]

theorem makedirs_preserves (fs : FS) (dir d : String) (l : List String)
    (h : fs d = some l) : makedirs fs dir d = some l := by
  by_cases hdd : d = dir
  · subst hdd
    rw [makedirs_self, h]
    rfl
  · rw [makedirs_other fs dir d hdd]
    exact h

/-- C10: construction stores both paths, creates each directory when it is
missing, leaves every existing directory listing unchanged, and leaves the
documents directory existing; consequently a no-argument `load_documents`
immediately after construction can only return the empty collection
through the empty-directory branch (or an empty reader result), never
through the missing-directory branch. -/
theorem C10_init_creates_dirs (fs : FS) (d v : String) (dp : DocumentProcessor)
    (fs' : FS) (h : DocumentProcessor.init d v fs = (dp, fs')) :
    dp.documents_dir = d ∧ dp.vector_store_dir = v ∧
    (∀ dir l, fs dir = some l → fs' dir = some l) ∧
    (fs d = none → fs' d = some []) ∧
    (fs v = none → fs' v = some []) ∧
    (fs' d).isSome = true ∧
    (∀ env, fs' d = some [] → dp.load_documents env fs' none = []) ∧
    (∀ env l, fs' d = some l → l ≠ [] →
      dp.load_documents env fs' none = env.readDocs d) := by
  have h1 : dp = (⟨d, v⟩ : DocumentProcessor) :=
    (congrArg Prod.fst h).symm
  have h2 : fs' = makedirs (makedirs fs d) v :=
    (congrArg Prod.snd h).symm
  subst h1
  clear h
  refine ⟨rfl, rfl, ?_, ?_, ?_, ?_, ?_, ?_⟩
  · intro dir l hfs
    rw [h2]
    exact makedirs_preserves _ v dir l (makedirs_preserves fs d dir l hfs)
  · intro hd
    rw [h2]
    by_cases hdv : d = v
    · subst hdv
      simp [makedirs_self, hd]
    · simp [makedirs_other (makedirs fs d) v d hdv, makedirs_self, hd]
  · intro hv
    rw [h2, makedirs_self]
    by_cases hvd : v = d
    · subst hvd
      simp [makedirs_self, hv]
    · simp [makedirs_other fs d v hvd, hv]
  · rw [h2]
    by_cases hdv : d = v
    · subst hdv
      simp [makedirs_self]
    · rw [makedirs_other (makedirs fs d) v d hdv, makedirs_self]
      rfl
  · intro env hfd
    unfold DocumentProcessor.load_documents
    simp [hfd]
  · intro env l hfd hne
    cases l with
    | nil => exact absurd rfl hne
    | cons a t =>
      unfold DocumentProcessor.load_documents
      simp [hfd]

/-- Witness for C10: construction over a filesystem with no directories,
and over one whose documents directory already holds a file. -/
theorem C10_init_creates_dirs_witness :
    ((DocumentProcessor.init "documents" "vector_store" fsEmpty).2 "documents").isSome
      = true ∧
    (DocumentProcessor.init "documents" "vector_store" fsEmpty).2 "documents"
      = some [] ∧
    DocumentProcessor.load_documents env0 ⟨"documents", "vector_store"⟩
      (DocumentProcessor.init "documents" "vector_store" fsEmpty).2 none = [] ∧
    (DocumentProcessor.init "documents" "vector_store" fsDocs).2 "documents"
      = some ["hello.txt"] ∧
    DocumentProcessor.load_documents envDocs ⟨"documents", "vector_store"⟩
      (DocumentProcessor.init "documents" "vector_store" fsDocs).2 none
      = envDocs.readDocs "documents" :=
  ⟨(C10_init_creates_dirs fsEmpty "documents" "vector_store" _ _ rfl).2.2.2.2.2.1,
   (C10_init_creates_dirs fsEmpty "documents" "vector_store" _ _ rfl).2.2.2.1 rfl,
   (C10_init_creates_dirs fsEmpty "documents" "vector_store" _ _ rfl).2.2.2.2.2.2.1
      env0 rfl,
   (C10_init_creates_dirs fsDocs "documents" "vector_store" _ _ rfl).2.2.1
      "documents" ["hello.txt"] rfl,
   (C10_init_creates_dirs fsDocs "documents" "vector_store" _ _ rfl).2.2.2.2.2.2.2
      envDocs ["hello.txt"] rfl (by decide)⟩

theorem query_congr_engine (env : Env) (s₁ s₂ : QueryEngine)
    (h : s₁.query_engine = s₂.query_engine) (t : String) :
    QueryEngine.query env s₁ t = QueryEngine.query env s₂ t := by
  unfold QueryEngine.query
  rw [h]

theorem queryLMRequests_congr_engine (env : Env) (s₁ s₂ : QueryEngine)
    (h : s₁.query_engine = s₂.query_engine) (t : String) :
    QueryEngine.queryLMRequests env s₁ t = QueryEngine.queryLMRequests env s₂ t := by
  unfold QueryEngine.queryLMRequests
  rw [h]

theorem update_prompt_engine_indep (s : QueryEngine) (sp sp' : String) :
    (s.update_prompt (some sp) none).query_engine
      = (s.update_prompt (some sp') none).query_engine := by
  unfold QueryEngine.update_prompt QueryEngine.create_query_engine
  cases hix : s.index <;> simp [hix]

/-- C1 (code-bug evidence): the system prompt stored by `update_prompt`
never reaches the template substitution.  First, universally: after
`update_prompt` with any two new system prompts, the immediately following
query issues identical language-model requests and returns identical
answers, so the newly set prompt text cannot appear in (nor the old one
disappear from) the synthesized request.  Second, at the concrete READY
engine: after updating the prompt, the single language-model request is
the active template with only `context_str` and `query_str` bound —
`system_prompt` stays an unbound placeholder — and differs from what the
claim asserts (the template with the new system prompt substituted). -/
theorem C1_system_prompt_never_substituted :
    (∀ (env : Env) (s : QueryEngine) (sp sp' query_text : String),
      QueryEngine.queryLMRequests env (s.update_prompt (some sp) none) query_text
        = QueryEngine.queryLMRequests env (s.update_prompt (some sp') none) query_text ∧
      QueryEngine.query env (s.update_prompt (some sp) none) query_text
        = QueryEngine.query env (s.update_prompt (some sp') none) query_text) ∧
    QueryEngine.queryLMRequests env0
        (readyEngine.update_prompt (some "新提示词XYZ") none) "法国的首都是哪里?"
      = [formatTemplate DEFAULT_QUERY_TEMPLATE
          [("context_str", "巴黎是法国的首都。"), ("query_str", "法国的首都是哪里?")]] ∧
    QueryEngine.queryLMRequests env0
        (readyEngine.update_prompt (some "新提示词XYZ") none) "法国的首都是哪里?"
      ≠ [formatTemplate DEFAULT_QUERY_TEMPLATE
          [("system_prompt", "新提示词XYZ"),
           ("context_str", "巴黎是法国的首都。"), ("query_str", "法国的首都是哪里?")]] := by
  refine ⟨?_, by decide, by decide⟩
  intro env s sp sp' query_text
  exact ⟨queryLMRequests_congr_engine env _ _ (update_prompt_engine_indep s sp sp') query_text,
         query_congr_engine env _ _ (update_prompt_engine_indep s sp sp') query_text⟩

/-- C2 is false as stated: at a concrete READY engine, the answer is not
the language model's output on the active template with `system_prompt`
(alongside `context_str` and `query_str`) substituted, because the engine
never binds the `system_prompt` placeholder. -/
theorem C2_counterexample_system_prompt_not_substituted :
    QueryEngine.query env0 readyEngine "法国的首都是哪里?"
      ≠ env0.llm (formatTemplate DEFAULT_QUERY_TEMPLATE
          [("system_prompt", readyEngine.system_prompt),
           ("context_str", "巴黎是法国的首都。"),
           ("query_str", "法国的首都是哪里?")]) := by
  decide

/-- C2 (amended): in READY, `query` retrieves with the fixed configured
top-K over the pipeline's index, filters at the configured similarity
cutoff, returns the fixed no-results string (with no language-model call)
when nothing passes, and otherwise makes exactly one language-model call
on the active template formatted with `context_str` and `query_str` (the
`system_prompt` placeholder is left unbound) and returns its answer. -/
theorem C2_query_ready_behaviour (env : Env) (s : QueryEngine) (hr : Reachable env s)
    (p : QueryPipeline) (hp : s.query_engine = some p) (query_text : String)
    (nodes : List ScoredNode)
    (hn : nodes = ((env.vectorSearch p.retriever_index query_text).take TOP_K).filter
        (fun n => decide (SIMILARITY_THRESHOLD ≤ n.score))) :
    (nodes = [] → QueryEngine.query env s query_text = NO_RESULTS_MESSAGE ∧
      QueryEngine.queryLMRequests env s query_text = []) ∧
    (nodes ≠ [] →
      QueryEngine.query env s query_text
        = env.llm (formatTemplate s.query_template
            [("context_str", String.intercalate "\n\n" (nodes.map ScoredNode.text)),
             ("query_str", query_text)]) ∧
      QueryEngine.queryLMRequests env s query_text
        = [formatTemplate s.query_template
            [("context_str", String.intercalate "\n\n" (nodes.map ScoredNode.text)),
             ("query_str", query_text)]]) := by
  obtain ⟨hix, htk, htpl⟩ := reachable_goodState env s hr p hp
  unfold QueryEngine.query QueryEngine.queryLMRequests QueryPipeline.run
  rw [hp]
  dsimp only
  rw [htk, htpl, ← hn]
  constructor
  · intro hnil
    subst hnil
    simp
  · intro hne
    cases nodes with
    | nil => exact absurd rfl hne
    | cons a t => simp

/-- Witness for C2 at the concrete READY engine: one retrieved chunk
passes the cutoff and the answer is the model's output on the formatted
template. -/
theorem C2_query_ready_behaviour_witness :
    QueryEngine.query env0 readyEngine "法国的首都是哪里?"
      = env0.llm (formatTemplate DEFAULT_QUERY_TEMPLATE
          [("context_str", "巴黎是法国的首都。"),
           ("query_str", "法国的首都是哪里?")]) ∧
    QueryEngine.queryLMRequests env0 readyEngine "法国的首都是哪里?"
      = [formatTemplate DEFAULT_QUERY_TEMPLATE
          [("context_str", "巴黎是法国的首都。"),
           ("query_str", "法国的首都是哪里?")]] :=
  (C2_query_ready_behaviour env0 readyEngine
    (Reachable.construct none SYSTEM_PROMPT none fsReady)
    ⟨7, TOP_K, DEFAULT_QUERY_TEMPLATE⟩ rfl "法国的首都是哪里?"
    [⟨"巴黎是法国的首都。", mkRat 9 10⟩] (by decide)).2 (by decide)

theorem saveImages_ok_length (env : ImgEnv) (output_dir prompt : String) :
    ∀ (data : List ImageData) (i : Nat) (rs : List ImageRecord),
      saveImages env output_dir prompt i data = Except.ok rs → rs.length = data.length := by
  intro data
  induction data with
  | nil =>
    intro i rs h
    unfold saveImages at h
    cases h
    rfl
  | cons d rest ih =>
    intro i rs h
    unfold saveImages at h
    cases hg : env.httpGet d.url with
    | error e => simp only [hg] at h; cases h
    | ok bytes =>
      simp only [hg] at h
      cases hd : env.imageDecode bytes with
      | error e => simp only [hd] at h; cases h
      | ok image =>
        simp only [hd] at h
        cases hs : env.imageSave (output_dir ++ "/" ++
            ("image_" ++ env.timestamp ++ "_" ++ toString i ++ ".png")) image with
        | error e => simp only [hs] at h; cases h
        | ok u =>
          simp only [hs] at h
          cases hr : saveImages env output_dir prompt (i + 1) rest with
          | error e => simp only [hr] at h; cases h
          | ok records =>
            simp only [hr] at h
            cases h
            simp [ih (i + 1) records hr]

/-- C4: `generate_image` either fails wholesale or returns a full batch:
when the image-API call raises, the result is `[]`; when it succeeds and
returns (per its contract for a request of `n` images) `n` data items, the
result has length `n` if the whole download/decode/save loop succeeds and
length `0` if any step of it raises — never a length strictly between. -/
theorem C4_generate_image_all_or_nothing (env : ImgEnv) (g : ImageGenerator)
    (prompt size quality style : String) (n : Nat)
    (hapi : ∀ data, env.imagesGenerate "dall-e-3" prompt size quality style n
      = Except.ok data → data.length = n) :
    ((ImageGenerator.generate_image env g prompt size quality style n).1.length = 0 ∨
     (ImageGenerator.generate_image env g prompt size quality style n).1.length = n) ∧
    (∀ e, env.imagesGenerate "dall-e-3" prompt size quality style n = Except.error e →
      (ImageGenerator.generate_image env g prompt size quality style n).1 = []) := by
  unfold ImageGenerator.generate_image
  cases hg : env.imagesGenerate "dall-e-3" prompt size quality style n with
  | error e =>
    exact ⟨Or.inl rfl, fun e' he' => rfl⟩
  | ok data =>
    refine ⟨?_, ?_⟩
    · cases hs : saveImages env g.output_dir prompt 0 data with
      | error e => simp [hs]
      | ok result =>
        right
        simp only [hs]
        exact (saveImages_ok_length env g.output_dir prompt data 0 result hs).trans
          (hapi data hg)
    · intro e' he'
      cases he'

/-- Witness for C4 with `n = 2`: a fully succeeding run (length 0 or 2), a
failing API call (empty result), and a failing download (empty result
despite a successful API call). -/
theorem C4_generate_image_all_or_nothing_witness :
    ((ImageGenerator.generate_image imgEnvOk gen0 "一只红色的圆" "1024x1024" "standard"
        "vivid" 2).1.length = 0 ∨
     (ImageGenerator.generate_image imgEnvOk gen0 "一只红色的圆" "1024x1024" "standard"
        "vivid" 2).1.length = 2) ∧
    (ImageGenerator.generate_image imgEnvApiFail gen0 "一只红色的圆" "1024x1024" "standard"
        "vivid" 2).1 = [] ∧
    ((ImageGenerator.generate_image imgEnvHttpFail gen0 "一只红色的圆" "1024x1024" "standard"
        "vivid" 2).1.length = 0 ∨
     (ImageGenerator.generate_image imgEnvHttpFail gen0 "一只红色的圆" "1024x1024" "standard"
        "vivid" 2).1.length = 2) :=
  ⟨(C4_generate_image_all_or_nothing imgEnvOk gen0 "一只红色的圆" "1024x1024" "standard"
      "vivid" 2 (fun data h => by injection h with h'; rw [← h']; rfl)).1,
   (C4_generate_image_all_or_nothing imgEnvApiFail gen0 "一只红色的圆" "1024x1024" "standard"
      "vivid" 2 (fun data h => by cases h)).2 "APIError" rfl,
   (C4_generate_image_all_or_nothing imgEnvHttpFail gen0 "一只红色的圆" "1024x1024" "standard"
      "vivid" 2 (fun data h => by injection h with h'; rw [← h']; rfl)).1⟩

/-- C5: when the analysis chat call raises,
`generate_image_with_text_analysis` returns `[]` having made no
image-API call at all — in particular no fallback generation from the
original text; when it succeeds, the operation is exactly `generate_image`
on the stripped enhanced prompt with that method's default
size/quality/style and `n = 1`, preceded by the chat call. -/
theorem C5_analysis_failure_aborts (env : ImgEnv) (g : ImageGenerator) (text : String) :
    (∀ e, env.chatCompletions g.model (analysisMessages text) = Except.error e →
      (ImageGenerator.generate_image_with_text_analysis env g text).1 = [] ∧
      ∀ c ∈ (ImageGenerator.generate_image_with_text_analysis env g text).2,
        c.isImagesCall = false) ∧
    (∀ content, env.chatCompletions g.model (analysisMessages text) = Except.ok content →
      ImageGenerator.generate_image_with_text_analysis env g text
        = ((ImageGenerator.generate_image env g content.trim "1024x1024" "standard"
              "vivid" 1).1,
           APICall.chatCompletion g.model (analysisMessages text) ::
             (ImageGenerator.generate_image env g content.trim "1024x1024" "standard"
               "vivid" 1).2)) := by
  unfold ImageGenerator.generate_image_with_text_analysis
  cases hc : env.chatCompletions g.model (analysisMessages text) with
  | error e =>
    constructor
    · intro e' he'
      constructor
      · rfl
      · intro c hc'
        simp only [List.mem_singleton] at hc'
        rw [hc']
        rfl
    · intro content hcontent
      cases hcontent
  | ok content =>
    constructor
    · intro e' he'
      cases he'
    · intro content' hcontent
      cases hcontent
      rfl

/-- Witness for C5: a failing analysis call (empty result, no image-API
call) and a succeeding one (delegation to `generate_image` with the
stripped enhanced prompt and the defaults). -/
theorem C5_analysis_failure_aborts_witness :
    ((ImageGenerator.generate_image_with_text_analysis imgEnvChatFail gen0
        "一只红色的圆").1 = [] ∧
     ∀ c ∈ (ImageGenerator.generate_image_with_text_analysis imgEnvChatFail gen0
        "一只红色的圆").2, c.isImagesCall = false) ∧
    ImageGenerator.generate_image_with_text_analysis imgEnvOk gen0 "一只红色的圆"
      = ((ImageGenerator.generate_image imgEnvOk gen0 ("  一只红色圆形的特写  ").trim
            "1024x1024" "standard" "vivid" 1).1,
         APICall.chatCompletion gen0.model (analysisMessages "一只红色的圆") ::
           (ImageGenerator.generate_image imgEnvOk gen0 ("  一只红色圆形的特写  ").trim
             "1024x1024" "standard" "vivid" 1).2) :=
  ⟨(C5_analysis_failure_aborts imgEnvChatFail gen0 "一只红色的圆").1
      "APIConnectionError" rfl,
   (C5_analysis_failure_aborts imgEnvOk gen0 "一只红色的圆").2
      "  一只红色圆形的特写  " rfl⟩

end RagApp
